import Mathlib

/-!
Verification of the Secure Partition Manager (SPM) dispatcher found in
services/std_svc/spm/spm_main.c of this repository.

The dispatcher is embedded shallowly: the module globals (spm_ctx.c_rt_ctx and
sp_init_in_progress) together with the observable state of the context
management collaborator form an explicit state record MachState, and every C
function becomes a Lean function on that record.  The embedding models the
assertions enabled build: a failed assert aborts the process, represented by
the SpmRes.abort result (including the DEBUG clearing of c_rt_ctx on return
from spm_secure_partition_enter, line 93 of the source).

The two continuation transfer primitives (spm_secure_partition_enter and
spm_secure_partition_exit) are assembly helpers that are not part of the
single source file; following the design description they capture a pending
call frame into c_rt_ctx and later jump back to it delivering a result.  The
capture side is therefore split into the part of spm_synchronous_sp_entry that
runs before the control transfer and the part that runs when the captured
frame is resumed, and an SMC handler finishes either with a return into a cpu
context or with a jump to the captured frame (SmcOutcome).
-/

set_option autoImplicit false
set_option linter.unusedVariables false

namespace Spm

/-- Modelled from the spec: function identifier of the completion call, taken
from the spm service header which is not under src.  Only distinctness of the
identifiers matters. -/
def SP_EVENT_COMPLETE_AARCH64 : Nat := 0xC4000061

/-- Modelled from the spec: function identifier of the memory attributes set
call (spm service header, not under src). -/
def SP_MEM_ATTRIBUTES_SET_AARCH64 : Nat := 0xC4000065

/-- Modelled from the spec: 32 bit calling convention identifier of the
communicate call (spm service header, not under src). -/
def SP_COMMUNICATE_AARCH32 : Nat := 0x84000063

/-- Modelled from the spec: 64 bit calling convention identifier of the
communicate call (spm service header, not under src). -/
def SP_COMMUNICATE_AARCH64 : Nat := 0xC4000063

/-- Modelled from the spec: the generic "not supported" status (smcc header,
not under src). -/
def SMC_UNK : Nat := 0xFFFFFFFF

/-- Modelled from the spec: origin tag for calls from the secure world
(smcc header, not under src). -/
def SMC_FROM_SECURE : Nat := 0

/-- Modelled from the spec: origin tag bit for calls from the non secure
world (smcc header, not under src). -/
def SMC_FROM_NON_SECURE : Nat := 1

/-- Modelled from the spec: the origin test used by the dispatcher (smcc
helper header, not under src); it extracts the origin bit of the flags
argument. -/
def is_caller_non_secure (flags : Nat) : Nat :=
  if flags &&& SMC_FROM_NON_SECURE ≠ 0 then 1 else 0

/-- Modelled from the spec: the translation granule size of the platform
headers, not under src; the standard 4 KiB granule. -/
def PAGE_SIZE : Nat := 4096

/-- Modelled from the spec: memory type base flag of the translation table
collaborator header, not under src. -/
def MT_MEMORY : Nat := 2

/-- Modelled from the spec: read write permission flag of the translation
table collaborator header, not under src. -/
def MT_RW : Nat := 4

/-- Modelled from the spec: secure world ownership flag of the translation
table collaborator header, not under src (secure is the default state, so the
flag value is zero and the non secure flag is the set bit). -/
def MT_SECURE : Nat := 0

/-- Modelled from the spec: execute never flag of the translation table
collaborator header, not under src. -/
def MT_EXECUTE_NEVER : Nat := 16

/-- The two security worlds of the core. -/
inductive World where
  | secure
  | nonsecure
deriving DecidableEq

/-- The cpu context pointers that occur in this program: the address of
spm_ctx.cpu_ctx and the address of the non secure world context owned by the
context management collaborator. -/
inductive CtxPtr where
  | spmSecureCtx
  | bootNsCtx
deriving DecidableEq

/-- The general purpose return registers of a saved cpu context that the
SMC_RET macros write. -/
structure RegBank where
  x0 : Nat := 0
  x1 : Nat := 0
  x2 : Nat := 0
  x3 : Nat := 0
deriving DecidableEq

/-- One call into a collaborator, recorded so that theorems can state which
collaborator services a handler did and did not invoke.  The trace lists the
most recent call first. -/
inductive Event where
  | sysregsSave (w : World)
  | sysregsRestore (w : World)
  | setNextEret (w : World)
  | prepareCtx
  | setElrSpsr (w : World)
  | secPartEnter (frame : Nat)
  | secPartExit (frame ret : Nat)
  | changeMemAttr (base size attr : Nat)
  | registerBl32Init
  | xlatSetup
  | initMyContext (pc : Nat)
deriving DecidableEq

/-- The explicit program state: the two module globals of spm_main.c
(c_rt_ctx inside spm_ctx, and sp_init_in_progress), the observable state of
the context management collaborator (registered context per world, next
exception return target, saved register banks) and the collaborator call
trace.  c_rt_ctx = 0 means the pending call frame is absent. -/
structure MachState where
  c_rt_ctx : Nat := 0
  sp_init_in_progress : Bool := false
  cmSecureCtx : Option CtxPtr := none
  cmNonSecureCtx : Option CtxPtr := none
  nextEret : Option World := none
  spmCtxRegs : RegBank := {}
  nsCtxRegs : RegBank := {}
  myCorePos : Nat := 0
  bl32InitRegistered : Bool := false
  trace : List Event := []
deriving DecidableEq

/-- The state at reset, before any SPM code has run. -/
def mach0 : MachState := {}

/-- Result of running a piece of the program: either a normal value or a
process abort caused by a failed assertion. -/
inductive SpmRes (α : Type) where
  | abort : SpmRes α
  | ok : α → SpmRes α
deriving DecidableEq

/-- How an SMC handler invocation finishes: a return into the saved cpu
context named by the handle (the SMC_RET macros), or the irreversible jump to
the captured pending call frame performed by spm_secure_partition_exit, which
delivers ret as the result of the blocked spm_synchronous_sp_entry. -/
inductive SmcOutcome where
  | ret (handle : CtxPtr)
  | exitToFrame (frame ret : Nat)
deriving DecidableEq

/-- cm_get_context of the context management collaborator. -/
def cm_get_context (s : MachState) (w : World) : Option CtxPtr :=
  match w with
  | .secure => s.cmSecureCtx
  | .nonsecure => s.cmNonSecureCtx

/-- cm_set_context of the context management collaborator. -/
def cm_set_context (s : MachState) (p : CtxPtr) (w : World) : MachState :=
  match w with
  | .secure => { s with cmSecureCtx := some p }
  | .nonsecure => { s with cmNonSecureCtx := some p }

/-- cm_el1_sysregs_context_save of the context management collaborator. -/
def cm_el1_sysregs_context_save (s : MachState) (w : World) : MachState :=
  { s with trace := Event.sysregsSave w :: s.trace }

/-- cm_el1_sysregs_context_restore of the context management collaborator. -/
def cm_el1_sysregs_context_restore (s : MachState) (w : World) : MachState :=
  { s with trace := Event.sysregsRestore w :: s.trace }

/-- cm_set_next_eret_context of the context management collaborator: records
which world the next exception return activates. -/
def cm_set_next_eret_context (s : MachState) (w : World) : MachState :=
  { s with nextEret := some w, trace := Event.setNextEret w :: s.trace }

/-- secure_partition_prepare_context of the secure partition collaborator. -/
def secure_partition_prepare_context (s : MachState) : MachState :=
  { s with trace := Event.prepareCtx :: s.trace }

/-- cm_init_my_context of the context management collaborator, seeding the
active context from the entry point descriptor. -/
def cm_init_my_context (s : MachState) (pc : Nat) : MachState :=
  { s with trace := Event.initMyContext pc :: s.trace }

/-- secure_partition_setup of the translation collaborator. -/
def secure_partition_setup (s : MachState) : MachState :=
  { s with trace := Event.xlatSetup :: s.trace }

/-- bl31_register_bl32_init of the boot orchestrator: registers the deferred
init callback. -/
def bl31_register_bl32_init (s : MachState) : MachState :=
  { s with bl32InitRegistered := true, trace := Event.registerBl32Init :: s.trace }

/-- Write v into x0 of the cpu context p (the SMC_RET1 macro). -/
def writeX0 (s : MachState) (p : CtxPtr) (v : Nat) : MachState :=
  match p with
  | .spmSecureCtx => { s with spmCtxRegs := { s.spmCtxRegs with x0 := v } }
  | .bootNsCtx => { s with nsCtxRegs := { s.nsCtxRegs with x0 := v } }

/-- Write v0..v3 into x0..x3 of the cpu context p (the SMC_RET4 macro). -/
def writeX0to3 (s : MachState) (p : CtxPtr) (v0 v1 v2 v3 : Nat) : MachState :=
  match p with
  | .spmSecureCtx => { s with spmCtxRegs := { x0 := v0, x1 := v1, x2 := v2, x3 := v3 } }
  | .bootNsCtx => { s with nsCtxRegs := { x0 := v0, x1 := v1, x2 := v2, x3 := v3 } }

/-- SMC_RET1: write the single return value into the context p and finish by
returning into p. -/
def SMC_RET1 (s : MachState) (p : CtxPtr) (v : Nat) : MachState × SmcOutcome :=
  (writeX0 s p v, SmcOutcome.ret p)

/-- SMC_RET4: write four return values into the context p and finish by
returning into p. -/
def SMC_RET4 (s : MachState) (p : CtxPtr) (v0 v1 v2 v3 : Nat) : MachState × SmcOutcome :=
  (writeX0to3 s p v0 v1 v2 v3, SmcOutcome.ret p)

/-- The C conversion from int to uint64_t used when an int status is placed
in a 64 bit return register. -/
def uint64_of_int (i : Int) : Nat :=
  (i % (2 : Int) ^ 64).toNat

/-- spm_setup_next_eret_into_sel0, lines 55 to 66: assert that the argument
is the registered secure context, then reprogram the monitor return state
from the saved S-EL1 return state so the next transfer lands at S-EL0. -/
def spm_setup_next_eret_into_sel0 (s : MachState) (secure_context : CtxPtr) :
    SpmRes MachState :=
  if cm_get_context s .secure = some secure_context then
    SpmRes.ok { s with trace := Event.setElrSpsr World.secure :: s.trace }
  else
    SpmRes.abort

/-- Lines 76 to 94 of spm_synchronous_sp_entry, up to and including the
control transfer performed by spm_secure_partition_enter: assert that the
pending call frame is empty and that the registered secure context is
spm_ctx.cpu_ctx, prepare and restore the secure context, make it the next
exception return target, and capture the current C runtime state as the
pending call frame.  The frame argument stands for the nonzero stack
reference that the assembly helper (not under src) stores through the
c_rt_ctx pointer. -/
def spm_synchronous_sp_entry_transfer (s : MachState) (frame : Nat) :
    SpmRes MachState :=
  if s.c_rt_ctx = 0 then
    if cm_get_context s .secure = some CtxPtr.spmSecureCtx then
      let s := secure_partition_prepare_context s
      let s := cm_el1_sysregs_context_restore s .secure
      let s := cm_set_next_eret_context s .secure
      SpmRes.ok { s with c_rt_ctx := frame,
                         trace := Event.secPartEnter frame :: s.trace }
    else SpmRes.abort
  else SpmRes.abort

/-- Lines 91 to 96 of spm_synchronous_sp_entry as resumed when the captured
frame is jumped to with result rc: the DEBUG build clears c_rt_ctx
immediately, and the enter call returns rc. -/
def spm_synchronous_sp_entry_resume (s : MachState) (rc : Nat) :
    MachState × Nat :=
  ({ s with c_rt_ctx := 0 }, rc)

/-- spm_synchronous_sp_exit, lines 109 to 121: assert that the registered
secure context is spm_ctx.cpu_ctx, save the secure register bank, assert that
the pending call frame is present, and jump to it delivering ret.  The
function never returns; the assert(0) after the jump is unreachable. -/
def spm_synchronous_sp_exit (s : MachState) (ret : Nat) :
    SpmRes (MachState × SmcOutcome) :=
  if cm_get_context s .secure = some CtxPtr.spmSecureCtx then
    let s := cm_el1_sysregs_context_save s .secure
    if s.c_rt_ctx = 0 then
      SpmRes.abort
    else
      SpmRes.ok ({ s with trace := Event.secPartExit s.c_rt_ctx ret :: s.trace },
                 SmcOutcome.exitToFrame s.c_rt_ctx ret)
  else SpmRes.abort

/-- The entry point descriptor produced by the boot collaborator; only the
program counter is inspected by the code under verification. -/
structure entry_point_info where
  pc : Nat
deriving DecidableEq

/-- spm_init_spm_ep_state, lines 161 to 186: assert a nonzero program
counter, register spm_ctx.cpu_ctx as the secure world context, and fill the
entry point descriptor (attributes, pc, spsr, zeroed arguments). -/
def spm_init_spm_ep_state (s : MachState) (pc : Nat) : SpmRes MachState :=
  if pc = 0 then SpmRes.abort
  else SpmRes.ok (cm_set_context s CtxPtr.spmSecureCtx .secure)

/-- spm_setup, lines 193 to 235: a missing descriptor or a zero program
counter is reported by returning 1 without registering anything; otherwise
the context is seeded, the secure address space is built and the deferred
init callback is registered, returning 0. -/
def spm_setup (s : MachState) (epInfo : Option entry_point_info) :
    SpmRes (MachState × Nat) :=
  match epInfo with
  | none => SpmRes.ok (s, 1)
  | some ep =>
    if ep.pc = 0 then SpmRes.ok (s, 1)
    else
      match spm_init_spm_ep_state s ep.pc with
      | SpmRes.abort => SpmRes.abort
      | SpmRes.ok s =>
        let s := secure_partition_setup s
        let s := bl31_register_bl32_init s
        SpmRes.ok (s, 0)

/-- spm_init, lines 130 to 150, up to and including the synchronous entry:
assert that the entry descriptor is present, seed the context, raise
sp_init_in_progress and perform the transfer of spm_synchronous_sp_entry. -/
def spm_init_pre (s : MachState) (epInfo : Option entry_point_info)
    (frame : Nat) : SpmRes MachState :=
  match epInfo with
  | none => SpmRes.abort
  | some ep =>
    let s := cm_init_my_context s ep.pc
    spm_synchronous_sp_entry_transfer
      { s with sp_init_in_progress := true } frame

/-- spm_init, lines 151 to 153, resumed after the synchronous entry returned
rc: assert rc = 0, clear sp_init_in_progress and return rc. -/
def spm_init_post (s : MachState) (rc : Nat) : SpmRes (MachState × Nat) :=
  if rc = 0 then
    SpmRes.ok ({ s with sp_init_in_progress := false }, rc)
  else SpmRes.abort

/-- smc_attr_to_mmap_attr, lines 244 to 259: translate the externally encoded
attribute bits to the translation table format, always starting from the
fixed base flags. -/
def smc_attr_to_mmap_attr (attributes : Nat) : Nat :=
  let tf_attr := MT_MEMORY ||| MT_SECURE
  let tf_attr := if attributes &&& 3 = 1 then tf_attr ||| MT_RW else tf_attr
  let tf_attr :=
    if (attributes >>> 2) &&& 1 = 1 then tf_attr ||| MT_EXECUTE_NEVER
    else tf_attr
  tf_attr

/-- spm_memory_attributes_smc_handler, lines 261 to 279: compute the byte
size as pages_count * PAGE_SIZE in 64 bit arithmetic, truncate the attribute
word to int width, translate it, call the translation collaborator
(change_mem_attributes, a fixed contract service represented by the xlat
argument) and return its status unchanged. -/
def spm_memory_attributes_smc_handler (xlat : Nat → Nat → Nat → Int)
    (s : MachState) (page_address pages_count smc_attributes : Nat) :
    MachState × Int :=
  let base_va := page_address
  let size := pages_count * PAGE_SIZE % 2 ^ 64
  let attributes := smc_attr_to_mmap_attr (smc_attributes % 2 ^ 32)
  ({ s with trace := Event.changeMemAttr base_va size attributes :: s.trace },
   xlat base_va size attributes)

/-- spm_smc_handler, lines 282 to 366: classify the call by origin and
function identifier and drive the completion, memory attributes, communicate
and default paths. -/
def spm_smc_handler (xlat : Nat → Nat → Nat → Int) (s : MachState)
    (smc_fid x1 x2 x3 x4 : Nat) (handle : CtxPtr) (flags : Nat) :
    SpmRes (MachState × SmcOutcome) :=
  if is_caller_non_secure flags = SMC_FROM_SECURE then
    if smc_fid = SP_EVENT_COMPLETE_AARCH64 then
      if cm_get_context s .secure = some handle then
        let s := cm_el1_sysregs_context_save s .secure
        match spm_setup_next_eret_into_sel0 s handle with
        | SpmRes.abort => SpmRes.abort
        | SpmRes.ok s =>
          if s.sp_init_in_progress then
            spm_synchronous_sp_exit s x1
          else
            match cm_get_context s .nonsecure with
            | none => SpmRes.abort
            | some ns_cpu_context =>
              let s := cm_el1_sysregs_context_restore s .nonsecure
              let s := cm_set_next_eret_context s .nonsecure
              SpmRes.ok (SMC_RET1 s ns_cpu_context x1)
      else SpmRes.abort
    else if smc_fid = SP_MEM_ATTRIBUTES_SET_AARCH64 then
      let (s, status) := spm_memory_attributes_smc_handler xlat s x1 x2 x3
      SpmRes.ok (SMC_RET1 s handle (uint64_of_int status))
    else
      SpmRes.ok (SMC_RET1 s handle SMC_UNK)
  else
    if smc_fid = SP_COMMUNICATE_AARCH32 ∨ smc_fid = SP_COMMUNICATE_AARCH64 then
      let s := cm_el1_sysregs_context_save s .nonsecure
      if cm_get_context s .secure = some CtxPtr.spmSecureCtx then
        let s := cm_el1_sysregs_context_restore s .secure
        let s := cm_set_next_eret_context s .secure
        SpmRes.ok (SMC_RET4 s CtxPtr.spmSecureCtx smc_fid x2 x3 s.myCorePos)
      else SpmRes.abort
    else
      SpmRes.ok (SMC_RET1 s handle SMC_UNK)

/-- The next moment of spm_synchronous_sp_entry followed immediately by the
matching spm_synchronous_sp_exit: the transfer hands control to the secure
side, the exit jumps back to the captured frame, and the enter call resumes
with the delivered value. -/
def enter_then_exit (s : MachState) (frame R : Nat) :
    SpmRes (MachState × Nat) :=
  match spm_synchronous_sp_entry_transfer s frame with
  | SpmRes.abort => SpmRes.abort
  | SpmRes.ok s1 =>
    match spm_synchronous_sp_exit s1 R with
    | SpmRes.abort => SpmRes.abort
    | SpmRes.ok (s2, out) =>
      match out with
      | SmcOutcome.exitToFrame _ r =>
        SpmRes.ok (spm_synchronous_sp_entry_resume s2 r)
      | SmcOutcome.ret _ => SpmRes.abort

/-- A sequence of SMCs issued by the secure partition while it is running,
each of which hands control straight back to the secure partition (memory
attribute calls and unrecognised identifiers do).  A call whose outcome
leaves the secure world ends the sequence and is treated as outside a valid
initialisation interleaving. -/
def runSecureCalls (xlat : Nat → Nat → Nat → Int) (s : MachState)
    (acts : List (Nat × Nat × Nat × Nat × Nat)) : SpmRes MachState :=
  match acts with
  | [] => SpmRes.ok s
  | (fid, x1, x2, x3, x4) :: rest =>
    match spm_smc_handler xlat s fid x1 x2 x3 x4 CtxPtr.spmSecureCtx
        SMC_FROM_SECURE with
    | SpmRes.abort => SpmRes.abort
    | SpmRes.ok (s1, out) =>
      match out with
      | SmcOutcome.ret CtxPtr.spmSecureCtx => runSecureCalls xlat s1 rest
      | _ => SpmRes.abort

/-- A complete run of spm_init: the pre part up to the synchronous entry, the
secure partition initialising itself (issuing any number of calls that come
straight back to it), the completion SMC carrying the result r, the jump back
to the captured frame, and the post part of spm_init. -/
def spm_init_run (xlat : Nat → Nat → Nat → Int) (s : MachState)
    (epInfo : Option entry_point_info) (frame : Nat)
    (acts : List (Nat × Nat × Nat × Nat × Nat)) (r : Nat) :
    SpmRes (MachState × Nat) :=
  match spm_init_pre s epInfo frame with
  | SpmRes.abort => SpmRes.abort
  | SpmRes.ok s1 =>
    match runSecureCalls xlat s1 acts with
    | SpmRes.abort => SpmRes.abort
    | SpmRes.ok s2 =>
      match spm_smc_handler xlat s2 SP_EVENT_COMPLETE_AARCH64 r 0 0 0
          CtxPtr.spmSecureCtx SMC_FROM_SECURE with
      | SpmRes.abort => SpmRes.abort
      | SpmRes.ok (s3, out) =>
        match out with
        | SmcOutcome.exitToFrame _ rc =>
          let p := spm_synchronous_sp_entry_resume s3 rc
          spm_init_post p.1 p.2
        | SmcOutcome.ret _ => SpmRes.abort

/-- Modelled from the spec: the runtime services framework that owns the SMC
range (std_svc, not under src).  spm_setup is run once at boot; a nonzero
return leaves the dispatcher permanently disabled, so the framework holds a
registered flag that is true exactly when setup returned 0. -/
def spm_service_boot (s : MachState) (epInfo : Option entry_point_info) :
    SpmRes (MachState × Bool) :=
  match spm_setup s epInfo with
  | SpmRes.abort => SpmRes.abort
  | SpmRes.ok (s1, rc) => SpmRes.ok (s1, decide (rc = 0))

/-- Modelled from the spec: the framework dispatch of an incoming SMC
(std_svc, not under src).  When the dispatcher is registered the call is
routed to spm_smc_handler; otherwise every identifier receives the generic
not supported status. -/
def std_svc_dispatch (xlat : Nat → Nat → Nat → Int) (registered : Bool)
    (s : MachState) (smc_fid x1 x2 x3 x4 : Nat) (handle : CtxPtr)
    (flags : Nat) : SpmRes (MachState × SmcOutcome) :=
  if registered then
    spm_smc_handler xlat s smc_fid x1 x2 x3 x4 handle flags
  else
    SpmRes.ok (SMC_RET1 s handle SMC_UNK)

/-- Where control sits while the dispatcher itself is quiescent. -/
inductive Loc where
  | preInit
  | secure
  | normal
deriving DecidableEq

/-- An observable system configuration: which side is executing, whether the
synchronous entry performed by spm_init is currently blocked (the ghost
marker the invariant speaks about), and the machine state. -/
structure Sys where
  loc : Loc
  inEnter : Bool
  st : MachState
deriving DecidableEq

/-- One observable transition of the system: the boot orchestrator invoking
spm_init, or one SMC handled by the dispatcher, with control moving to
wherever the handler outcome sends it.  An abort has no successor. -/
inductive Step (xlat : Nat → Nat → Nat → Int) : Sys → Sys → Prop where
  | initEnter (b : Bool) (s s1 : MachState) (ep : entry_point_info)
      (frame : Nat) :
      frame ≠ 0 →
      spm_init_pre s (some ep) frame = SpmRes.ok s1 →
      Step xlat ⟨Loc.preInit, b, s⟩ ⟨Loc.secure, true, s1⟩
  | secRetSelf (b : Bool) (s s1 : MachState) (fid x1 x2 x3 x4 : Nat) :
      spm_smc_handler xlat s fid x1 x2 x3 x4 CtxPtr.spmSecureCtx
        SMC_FROM_SECURE = SpmRes.ok (s1, SmcOutcome.ret CtxPtr.spmSecureCtx) →
      Step xlat ⟨Loc.secure, b, s⟩ ⟨Loc.secure, b, s1⟩
  | secRetNormal (b : Bool) (s s1 : MachState) (fid x1 x2 x3 x4 : Nat) :
      spm_smc_handler xlat s fid x1 x2 x3 x4 CtxPtr.spmSecureCtx
        SMC_FROM_SECURE = SpmRes.ok (s1, SmcOutcome.ret CtxPtr.bootNsCtx) →
      Step xlat ⟨Loc.secure, b, s⟩ ⟨Loc.normal, b, s1⟩
  | secExitResume (b : Bool) (s s1 s2 : MachState) (fid x1 x2 x3 x4 : Nat)
      (frame rc ret : Nat) :
      spm_smc_handler xlat s fid x1 x2 x3 x4 CtxPtr.spmSecureCtx
        SMC_FROM_SECURE = SpmRes.ok (s1, SmcOutcome.exitToFrame frame rc) →
      spm_init_post (spm_synchronous_sp_entry_resume s1 rc).1
        (spm_synchronous_sp_entry_resume s1 rc).2 = SpmRes.ok (s2, ret) →
      Step xlat ⟨Loc.secure, b, s⟩ ⟨Loc.normal, false, s2⟩
  | nsRetSelf (b : Bool) (s s1 : MachState) (fid x1 x2 x3 x4 : Nat) :
      spm_smc_handler xlat s fid x1 x2 x3 x4 CtxPtr.bootNsCtx
        SMC_FROM_NON_SECURE = SpmRes.ok (s1, SmcOutcome.ret CtxPtr.bootNsCtx) →
      Step xlat ⟨Loc.normal, b, s⟩ ⟨Loc.normal, b, s1⟩
  | nsRetSecure (b : Bool) (s s1 : MachState) (fid x1 x2 x3 x4 : Nat) :
      spm_smc_handler xlat s fid x1 x2 x3 x4 CtxPtr.bootNsCtx
        SMC_FROM_NON_SECURE = SpmRes.ok (s1, SmcOutcome.ret CtxPtr.spmSecureCtx) →
      Step xlat ⟨Loc.normal, b, s⟩ ⟨Loc.secure, b, s1⟩

/-- The configurations reachable by the dispatcher: a successful spm_setup
from the reset state, followed by any sequence of observable transitions. -/
inductive Reachable (xlat : Nat → Nat → Nat → Int) : Sys → Prop where
  | boot (pc : Nat) (s0 : MachState) :
      pc ≠ 0 →
      spm_setup mach0 (some ⟨pc⟩) = SpmRes.ok (s0, 0) →
      Reachable xlat ⟨Loc.preInit, false, s0⟩
  | step (a b : Sys) : Reachable xlat a → Step xlat a b → Reachable xlat b

/-! ### Helper lemmas -/

/-- Arithmetic form of the attribute translation: the low two bits must equal
01 for read write, bit 2 selects execute never, nothing else is read. -/
theorem smc_attr_to_mmap_attr_eq (a : Nat) :
    smc_attr_to_mmap_attr a =
      if a % 4 = 1 then (if a / 4 % 2 = 1 then 22 else 6)
      else (if a / 4 % 2 = 1 then 18 else 2) := by
  have h3 : a &&& 3 = a % 4 := by
    have h := Nat.and_pow_two_sub_one_eq_mod a 2
    norm_num at h
    exact h
  have h1 : (a >>> 2) &&& 1 = a / 4 % 2 := by
    have h := Nat.and_one_is_mod (a >>> 2)
    rw [h, Nat.shiftRight_eq_div_pow]
  by_cases h : a % 4 = 1 <;> by_cases h2 : a / 4 % 2 = 1 <;>
    simp [smc_attr_to_mmap_attr, h3, h1, h, h2,
      MT_MEMORY, MT_SECURE, MT_RW, MT_EXECUTE_NEVER]

/-- The translation only reads the low three bits of its argument. -/
theorem smc_attr_to_mmap_attr_low_bits (a : Nat) :
    smc_attr_to_mmap_attr a = smc_attr_to_mmap_attr (a % 8) := by
  rw [smc_attr_to_mmap_attr_eq, smc_attr_to_mmap_attr_eq]
  have e1 : a % 8 % 4 = a % 4 := by omega
  have e2 : a % 8 / 4 % 2 = a / 4 % 2 := by omega
  rw [e1, e2]

/-- Truncation to int width does not change the translated attributes. -/
theorem smc_attr_to_mmap_attr_trunc (a : Nat) :
    smc_attr_to_mmap_attr (a % 2 ^ 32) = smc_attr_to_mmap_attr a := by
  rw [smc_attr_to_mmap_attr_eq, smc_attr_to_mmap_attr_eq]
  have e1 : a % 2 ^ 32 % 4 = a % 4 := by omega
  have e2 : a % 2 ^ 32 / 4 % 2 = a / 4 % 2 := by omega
  rw [e1, e2]

/-! ### Claim C7 -/

/-- Claim C7 counterexample: the claim says bit 0 alone determines read write
enable and every bit other than 0 and 2 is ignored, but the code tests the
low two bits together: inputs 1 and 3 agree on bit 0 and on bit 2 yet
translate differently, bit 1 suppressing read write. -/
theorem bit_one_not_ignored_c7_cex :
    smc_attr_to_mmap_attr 1 ≠ smc_attr_to_mmap_attr 3
      ∧ (1 : Nat) &&& 1 = 3 &&& 1 ∧ (1 : Nat) &&& 4 = 3 &&& 4
      ∧ smc_attr_to_mmap_attr 1 &&& MT_RW = MT_RW
      ∧ smc_attr_to_mmap_attr 3 &&& MT_RW ≠ MT_RW := by
  refine ⟨?_, rfl, rfl, ?_, ?_⟩ <;> decide

/-- Claim C7 (amended): every result includes the fixed base flags
MT_MEMORY and MT_SECURE; read write is enabled exactly when the low two bits
of the input equal 01 (so bit 1 participates, against the original claim);
execute never is determined by bit 2 alone; bits above bit 2 have no effect;
translate of 0 gives the base flags only and translate of 5 gives base flags
plus read write plus execute never. -/
theorem smc_attr_to_mmap_attr_spec_c7 (a : Nat) :
    smc_attr_to_mmap_attr a &&& (MT_MEMORY ||| MT_SECURE) =
        (MT_MEMORY ||| MT_SECURE)
      ∧ (smc_attr_to_mmap_attr a &&& MT_RW = MT_RW ↔ a &&& 3 = 1)
      ∧ (smc_attr_to_mmap_attr a &&& MT_EXECUTE_NEVER = MT_EXECUTE_NEVER ↔
          (a >>> 2) &&& 1 = 1)
      ∧ smc_attr_to_mmap_attr a = smc_attr_to_mmap_attr (a % 8)
      ∧ smc_attr_to_mmap_attr 0 = (MT_MEMORY ||| MT_SECURE)
      ∧ smc_attr_to_mmap_attr 5 =
          ((MT_MEMORY ||| MT_SECURE) ||| MT_RW ||| MT_EXECUTE_NEVER) := by
  have h3 : a &&& 3 = a % 4 := by
    have h := Nat.and_pow_two_sub_one_eq_mod a 2
    norm_num at h
    exact h
  have h1 : (a >>> 2) &&& 1 = a / 4 % 2 := by
    have h := Nat.and_one_is_mod (a >>> 2)
    rw [h, Nat.shiftRight_eq_div_pow]
  refine ⟨?_, ?_, ?_, smc_attr_to_mmap_attr_low_bits a, by decide, by decide⟩ <;>
    rw [smc_attr_to_mmap_attr_eq] <;>
      by_cases h : a % 4 = 1 <;> by_cases h2 : a / 4 % 2 = 1 <;>
        simp [h, h2, h3, h1, MT_MEMORY, MT_SECURE, MT_RW, MT_EXECUTE_NEVER] <;>
          decide

/-! ### Claims C9 and C10 -/

/-- A collaborator stub that reports the size it was handed, used to witness
which byte count the handler requests. -/
def xlatSize : Nat → Nat → Nat → Int := fun _ size _ => (size : Int)

/-- A trivial collaborator stub. -/
def xlat0 : Nat → Nat → Nat → Int := fun _ _ _ => 0

/-- Claim C9 counterexample: at page count 2 to the 52 the handler asks the
collaborator to change 0 bytes, not pages times PAGE_SIZE bytes, because the
64 bit product wraps. -/
theorem mem_attr_size_wraps_c9_cex :
    (spm_memory_attributes_smc_handler xlatSize mach0 0 4503599627370496 0).2
        = (0 : Int)
      ∧ (4503599627370496 * PAGE_SIZE : Nat) ≠ 0 := by
  constructor
  · rfl
  · decide

/-- The memory attributes handler computed in closed form: it records and
forwards to the collaborator the base address, the 64 bit product of page
count and page size, and the translated attributes, and passes the status
back unchanged. -/
theorem spm_memory_attributes_smc_handler_eq (xlat : Nat → Nat → Nat → Int)
    (s : MachState) (B N A : Nat) :
    spm_memory_attributes_smc_handler xlat s B N A =
      ({ s with trace := Event.changeMemAttr B (N * PAGE_SIZE % 2 ^ 64)
                  (smc_attr_to_mmap_attr A) :: s.trace },
       xlat B (N * PAGE_SIZE % 2 ^ 64) (smc_attr_to_mmap_attr A)) := by
  unfold spm_memory_attributes_smc_handler
  rw [smc_attr_to_mmap_attr_trunc]

/-- Claim C9 (amended): for every secure origin memory attributes set call
with base B, page count N and attribute bits A, the handler invokes the
translation collaborator over (N * PAGE_SIZE) mod 2 to the 64 bytes starting
at B, which is exactly N * PAGE_SIZE whenever that product fits in 64 bits,
with attributes smc_attr_to_mmap_attr A, performs no additional validation,
and returns the collaborator status unchanged; page count 0 requests a zero
length change and still propagates the status verbatim. -/
theorem mem_attr_passthrough_c9 (xlat : Nat → Nat → Nat → Int)
    (s : MachState) (B N A : Nat) :
    spm_memory_attributes_smc_handler xlat s B N A =
        ({ s with trace := Event.changeMemAttr B (N * PAGE_SIZE % 2 ^ 64)
                    (smc_attr_to_mmap_attr A) :: s.trace },
         xlat B (N * PAGE_SIZE % 2 ^ 64) (smc_attr_to_mmap_attr A))
      ∧ (N * PAGE_SIZE < 2 ^ 64 → N * PAGE_SIZE % 2 ^ 64 = N * PAGE_SIZE)
      ∧ (N = 0 →
          spm_memory_attributes_smc_handler xlat s B N A =
            ({ s with trace := Event.changeMemAttr B 0
                        (smc_attr_to_mmap_attr A) :: s.trace },
             xlat B 0 (smc_attr_to_mmap_attr A))) := by
  refine ⟨spm_memory_attributes_smc_handler_eq xlat s B N A,
    fun h => Nat.mod_eq_of_lt h, fun h => ?_⟩
  subst h
  have he := spm_memory_attributes_smc_handler_eq xlat s B 0 A
  norm_num at he
  exact he

/-- Claim C9 witness: the amended statement evaluated at a concrete call. -/
theorem mem_attr_passthrough_c9_witness :
    (3 * PAGE_SIZE < 2 ^ 64 → 3 * PAGE_SIZE % 2 ^ 64 = 3 * PAGE_SIZE)
      ∧ spm_memory_attributes_smc_handler xlatSize mach0 4096 3 5 =
          ({ mach0 with trace := [Event.changeMemAttr 4096 12288 22] },
           (12288 : Int)) := by
  have h := mem_attr_passthrough_c9 xlatSize mach0 4096 3 5
  exact ⟨h.2.1, by rw [h.1]; rfl⟩

/-- Claim C10: the byte size handed to the translation collaborator is
pages_count * PAGE_SIZE reduced modulo 2 to the 64; whenever the product
overflows, the requested region silently wraps to a strictly smaller size and
the collaborator is still invoked (with its status returned) rather than the
request being rejected. -/
theorem mem_attr_size_mod64_c10 (xlat : Nat → Nat → Nat → Int)
    (s : MachState) (B N A : Nat) :
    (spm_memory_attributes_smc_handler xlat s B N A).1.trace =
        Event.changeMemAttr B (N * PAGE_SIZE % 2 ^ 64)
          (smc_attr_to_mmap_attr A) :: s.trace
      ∧ (spm_memory_attributes_smc_handler xlat s B N A).2 =
          xlat B (N * PAGE_SIZE % 2 ^ 64) (smc_attr_to_mmap_attr A)
      ∧ (2 ^ 64 ≤ N * PAGE_SIZE → N * PAGE_SIZE % 2 ^ 64 < N * PAGE_SIZE) := by
  have h := spm_memory_attributes_smc_handler_eq xlat s B N A
  refine ⟨by rw [h], by rw [h], fun hle => ?_⟩
  calc N * PAGE_SIZE % 2 ^ 64 < 2 ^ 64 := Nat.mod_lt _ (by norm_num)
    _ ≤ N * PAGE_SIZE := hle

/-- Claim C10 witness: at page count 2 to the 52 the product is exactly 2 to
the 64, so the size wraps to 0 and the collaborator still answers. -/
theorem mem_attr_size_mod64_c10_witness :
    ((2 : Nat) ^ 64 ≤ 4503599627370496 * PAGE_SIZE)
      ∧ 4503599627370496 * PAGE_SIZE % 2 ^ 64 < 4503599627370496 * PAGE_SIZE := by
  refine ⟨by norm_num [PAGE_SIZE], ?_⟩
  exact (mem_attr_size_mod64_c10 xlat0 mach0 0 4503599627370496 0).2.2
    (by norm_num [PAGE_SIZE])

/-! ### Claims C2 and C3 -/

/-- A well formed quiescent state used by the concrete witnesses: both world
contexts are registered. -/
def sWit : MachState :=
  { cmSecureCtx := some CtxPtr.spmSecureCtx,
    cmNonSecureCtx := some CtxPtr.bootNsCtx }

/-- Claim C2: from a state whose pending call frame is empty, a synchronous
enter immediately followed by the matching synchronous exit with argument R
makes the enter call return exactly R with the pending call frame empty
again, and spm_synchronous_sp_exit itself never returns: its only outcomes
are an abort or the jump to the captured frame. -/
theorem sync_enter_exit_roundtrip_c2 (s : MachState) (frame R : Nat)
    (h0 : s.c_rt_ctx = 0)
    (hctx : cm_get_context s World.secure = some CtxPtr.spmSecureCtx)
    (hframe : frame ≠ 0) :
    (∃ s1, enter_then_exit s frame R = SpmRes.ok (s1, R) ∧ s1.c_rt_ctx = 0)
      ∧ ∀ (t : MachState) (r : Nat),
          spm_synchronous_sp_exit t r = SpmRes.abort
            ∨ ∃ u f, spm_synchronous_sp_exit t r =
                SpmRes.ok (u, SmcOutcome.exitToFrame f r) := by
  have hsc : s.cmSecureCtx = some CtxPtr.spmSecureCtx := hctx
  constructor
  · simp only [enter_then_exit, spm_synchronous_sp_entry_transfer,
      spm_synchronous_sp_exit, spm_synchronous_sp_entry_resume,
      secure_partition_prepare_context, cm_el1_sysregs_context_restore,
      cm_el1_sysregs_context_save, cm_set_next_eret_context, cm_get_context,
      h0, hsc, hframe, if_true, if_false]
    simp [hframe]
  · intro t r
    unfold spm_synchronous_sp_exit
    by_cases hc : cm_get_context t World.secure = some CtxPtr.spmSecureCtx
    · rw [if_pos hc]
      by_cases hz : t.c_rt_ctx = 0
      · left
        simp [cm_el1_sysregs_context_save, hz]
      · right
        refine ⟨{ t with trace := Event.secPartExit t.c_rt_ctx r
            :: Event.sysregsSave World.secure :: t.trace }, t.c_rt_ctx, ?_⟩
        simp [cm_el1_sysregs_context_save, hz]
    · left
      rw [if_neg hc]

/-- Claim C2 witness: the round trip evaluated from a concrete empty frame
state with frame reference 7 and result 42. -/
theorem sync_enter_exit_roundtrip_c2_witness :
    sWit.c_rt_ctx = 0
      ∧ cm_get_context sWit World.secure = some CtxPtr.spmSecureCtx
      ∧ (7 : Nat) ≠ 0
      ∧ ((∃ s1, enter_then_exit sWit 7 42 = SpmRes.ok (s1, 42) ∧ s1.c_rt_ctx = 0)
          ∧ ∀ (t : MachState) (r : Nat),
              spm_synchronous_sp_exit t r = SpmRes.abort
                ∨ ∃ u f, spm_synchronous_sp_exit t r =
                    SpmRes.ok (u, SmcOutcome.exitToFrame f r)) :=
  ⟨rfl, rfl, by decide, sync_enter_exit_roundtrip_c2 sWit 7 42 rfl rfl (by decide)⟩

/-- Claim C3: a synchronous enter while the pending call frame is still
occupied aborts the process at the entry assertion; no state (and in
particular no overwritten frame) results. -/
theorem sync_entry_nonreentrant_c3 (s : MachState) (frame : Nat)
    (h : s.c_rt_ctx ≠ 0) :
    spm_synchronous_sp_entry_transfer s frame = SpmRes.abort := by
  unfold spm_synchronous_sp_entry_transfer
  rw [if_neg h]

/-- Claim C3 witness: a second enter from a state whose frame holds 5 aborts. -/
theorem sync_entry_nonreentrant_c3_witness :
    ({ sWit with c_rt_ctx := 5 } : MachState).c_rt_ctx ≠ 0
      ∧ spm_synchronous_sp_entry_transfer { sWit with c_rt_ctx := 5 } 9 =
          SpmRes.abort :=
  ⟨by decide, sync_entry_nonreentrant_c3 { sWit with c_rt_ctx := 5 } 9 (by decide)⟩

/-! ### Claim C1 -/

/-- Claim C1: a secure origin completion call with sp_init_in_progress set
routes through spm_synchronous_sp_exit (either jumping to the captured frame
with the result x1, or aborting at its assertion when no frame is pending)
and never returns into any cpu context; with the flag clear it restores and
activates the non secure context, delivers x1 into its return register, and
never invokes spm_synchronous_sp_exit (the recorded collaborator calls are
exactly save secure, set return state, restore non secure, set next
transfer). -/
theorem completion_routing_c1 (xlat : Nat → Nat → Nat → Int) (s : MachState)
    (x1 x2 x3 x4 flags : Nat)
    (hsec : flags &&& 1 = 0)
    (hctx : cm_get_context s World.secure = some CtxPtr.spmSecureCtx)
    (hns : cm_get_context s World.nonsecure = some CtxPtr.bootNsCtx) :
    (s.sp_init_in_progress = true →
        ((spm_smc_handler xlat s SP_EVENT_COMPLETE_AARCH64 x1 x2 x3 x4
              CtxPtr.spmSecureCtx flags = SpmRes.abort ∧ s.c_rt_ctx = 0)
          ∨ spm_smc_handler xlat s SP_EVENT_COMPLETE_AARCH64 x1 x2 x3 x4
                CtxPtr.spmSecureCtx flags =
              SpmRes.ok
                ({ s with trace := Event.secPartExit s.c_rt_ctx x1
                    :: Event.sysregsSave World.secure
                    :: Event.setElrSpsr World.secure
                    :: Event.sysregsSave World.secure :: s.trace },
                 SmcOutcome.exitToFrame s.c_rt_ctx x1)))
      ∧ (s.sp_init_in_progress = true →
            ∀ s1 p, spm_smc_handler xlat s SP_EVENT_COMPLETE_AARCH64 x1 x2 x3 x4
                CtxPtr.spmSecureCtx flags ≠ SpmRes.ok (s1, SmcOutcome.ret p))
      ∧ (s.sp_init_in_progress = false →
            spm_smc_handler xlat s SP_EVENT_COMPLETE_AARCH64 x1 x2 x3 x4
                CtxPtr.spmSecureCtx flags =
              SpmRes.ok
                ({ s with
                    nsCtxRegs := { s.nsCtxRegs with x0 := x1 }
                    nextEret := some World.nonsecure
                    trace := Event.setNextEret World.nonsecure
                      :: Event.sysregsRestore World.nonsecure
                      :: Event.setElrSpsr World.secure
                      :: Event.sysregsSave World.secure :: s.trace },
                 SmcOutcome.ret CtxPtr.bootNsCtx)) := by
  have hsc : s.cmSecureCtx = some CtxPtr.spmSecureCtx := hctx
  have hnsc : s.cmNonSecureCtx = some CtxPtr.bootNsCtx := hns
  have hcall : is_caller_non_secure flags = SMC_FROM_SECURE := by
    unfold is_caller_non_secure SMC_FROM_SECURE SMC_FROM_NON_SECURE
    simp [hsec]
  refine ⟨?_, ?_, ?_⟩
  · intro hp
    by_cases hz : s.c_rt_ctx = 0
    · left
      refine ⟨?_, hz⟩
      simp [spm_smc_handler, hcall, cm_get_context, hsc, hnsc, hp, hz,
        cm_el1_sysregs_context_save, spm_setup_next_eret_into_sel0,
        spm_synchronous_sp_exit]
    · right
      simp [spm_smc_handler, hcall, cm_get_context, hsc, hnsc, hp, hz,
        cm_el1_sysregs_context_save, spm_setup_next_eret_into_sel0,
        spm_synchronous_sp_exit]
  · intro hp s1 p
    by_cases hz : s.c_rt_ctx = 0 <;>
      simp [spm_smc_handler, hcall, cm_get_context, hsc, hnsc, hp, hz,
        cm_el1_sysregs_context_save, spm_setup_next_eret_into_sel0,
        spm_synchronous_sp_exit]
  · intro hp
    simp [spm_smc_handler, hcall, cm_get_context, hsc, hnsc, hp,
      cm_el1_sysregs_context_save, spm_setup_next_eret_into_sel0,
      cm_el1_sysregs_context_restore, cm_set_next_eret_context,
      SMC_RET1, writeX0]

/-- Claim C1 witness: both routing branches evaluated at concrete states, a
pending frame of 3 for the flag set case and result code 11. -/
theorem completion_routing_c1_witness :
    ((0 : Nat) &&& 1 = 0)
      ∧ ({ sWit with c_rt_ctx := 3, sp_init_in_progress := true }
            : MachState).sp_init_in_progress = true
      ∧ (sWit.sp_init_in_progress = false)
      ∧ spm_smc_handler xlat0 { sWit with c_rt_ctx := 3, sp_init_in_progress := true }
          SP_EVENT_COMPLETE_AARCH64 11 0 0 0 CtxPtr.spmSecureCtx 0 =
          SpmRes.ok
            ({ sWit with
                c_rt_ctx := 3
                sp_init_in_progress := true
                trace := Event.secPartExit 3 11
                  :: Event.sysregsSave World.secure
                  :: Event.setElrSpsr World.secure
                  :: Event.sysregsSave World.secure :: sWit.trace },
             SmcOutcome.exitToFrame 3 11)
      ∧ spm_smc_handler xlat0 sWit SP_EVENT_COMPLETE_AARCH64 11 0 0 0
          CtxPtr.spmSecureCtx 0 =
          SpmRes.ok
            ({ sWit with
                nsCtxRegs := { sWit.nsCtxRegs with x0 := 11 }
                nextEret := some World.nonsecure
                trace := Event.setNextEret World.nonsecure
                  :: Event.sysregsRestore World.nonsecure
                  :: Event.setElrSpsr World.secure
                  :: Event.sysregsSave World.secure :: sWit.trace },
             SmcOutcome.ret CtxPtr.bootNsCtx) := by
  have h1 := completion_routing_c1 xlat0
    { sWit with c_rt_ctx := 3, sp_init_in_progress := true } 11 0 0 0 0
    rfl rfl rfl
  have h2 := completion_routing_c1 xlat0 sWit 11 0 0 0 0 rfl rfl rfl
  refine ⟨rfl, rfl, rfl, ?_, h2.2.2 rfl⟩
  rcases h1.1 rfl with ⟨habort, hzero⟩ | hok
  · exact absurd hzero (by decide)
  · exact hok

/-! ### Claim C6 -/

/-- Claim C6: a non secure origin communicate call of either width saves the
non secure register context, activates the secure context as the next
transfer target, and writes exactly the tuple (function identifier, x2, x3,
this core identifier) into the return registers of the saved secure context,
resuming it at its last suspension point; no spm_synchronous_sp_entry is
performed (the recorded collaborator calls are exactly save non secure,
restore secure, set next transfer). -/
theorem communicate_injects_args_c6 (xlat : Nat → Nat → Nat → Int)
    (s : MachState) (fid x1 x2 x3 x4 flags : Nat) (handle : CtxPtr)
    (hnsorig : flags &&& 1 = 1)
    (hfid : fid = SP_COMMUNICATE_AARCH32 ∨ fid = SP_COMMUNICATE_AARCH64)
    (hctx : cm_get_context s World.secure = some CtxPtr.spmSecureCtx) :
    spm_smc_handler xlat s fid x1 x2 x3 x4 handle flags =
      SpmRes.ok
        ({ s with
            spmCtxRegs := { x0 := fid, x1 := x2, x2 := x3, x3 := s.myCorePos }
            nextEret := some World.secure
            trace := Event.setNextEret World.secure
              :: Event.sysregsRestore World.secure
              :: Event.sysregsSave World.nonsecure :: s.trace },
         SmcOutcome.ret CtxPtr.spmSecureCtx) := by
  have hsc : s.cmSecureCtx = some CtxPtr.spmSecureCtx := hctx
  have hcall : is_caller_non_secure flags ≠ SMC_FROM_SECURE := by
    unfold is_caller_non_secure SMC_FROM_SECURE SMC_FROM_NON_SECURE
    simp [hnsorig]
  simp [spm_smc_handler, hcall, hfid, cm_get_context, hsc,
    cm_el1_sysregs_context_save, cm_el1_sysregs_context_restore,
    cm_set_next_eret_context, SMC_RET4, writeX0to3]

/-- Claim C6 witness: a 64 bit width communicate call evaluated concretely
on a core with identifier 0. -/
theorem communicate_injects_args_c6_witness :
    ((5 : Nat) &&& 1 = 1)
      ∧ (SP_COMMUNICATE_AARCH64 = SP_COMMUNICATE_AARCH32
          ∨ SP_COMMUNICATE_AARCH64 = SP_COMMUNICATE_AARCH64)
      ∧ spm_smc_handler xlat0 sWit SP_COMMUNICATE_AARCH64 21 22 23 24
          CtxPtr.bootNsCtx 5 =
          SpmRes.ok
            ({ sWit with
                spmCtxRegs := { x0 := SP_COMMUNICATE_AARCH64, x1 := 22,
                                x2 := 23, x3 := sWit.myCorePos }
                nextEret := some World.secure
                trace := Event.setNextEret World.secure
                  :: Event.sysregsRestore World.secure
                  :: Event.sysregsSave World.nonsecure :: sWit.trace },
             SmcOutcome.ret CtxPtr.spmSecureCtx) :=
  ⟨rfl, Or.inr rfl,
    communicate_injects_args_c6 xlat0 sWit SP_COMMUNICATE_AARCH64 21 22 23 24 5
      CtxPtr.bootNsCtx rfl (Or.inr rfl) rfl⟩

/-! ### Claim C8 -/

/-- Claim C8: when the boot collaborator supplies no entry point descriptor,
or one whose program counter is zero, spm_setup returns the failure value 1
without aborting and without touching the state (so neither the deferred init
callback nor any call identifier is registered), the service boot leaves the
dispatcher unregistered, and every subsequent call of any identifier from
either origin receives the generic not supported status. -/
theorem setup_failure_disables_c8 (xlat : Nat → Nat → Nat → Int)
    (s : MachState) (epInfo : Option entry_point_info)
    (hbad : epInfo = none ∨ ∃ ep, epInfo = some ep ∧ ep.pc = 0) :
    spm_setup s epInfo = SpmRes.ok (s, 1)
      ∧ spm_service_boot s epInfo = SpmRes.ok (s, false)
      ∧ ∀ fid x1 x2 x3 x4 handle flags,
          std_svc_dispatch xlat false s fid x1 x2 x3 x4 handle flags =
            SpmRes.ok (SMC_RET1 s handle SMC_UNK) := by
  have hsetup : spm_setup s epInfo = SpmRes.ok (s, 1) := by
    rcases hbad with h | ⟨ep, h, hpc⟩
    · rw [h]
      rfl
    · rw [h]
      simp [spm_setup, hpc]
  refine ⟨hsetup, ?_, ?_⟩
  · unfold spm_service_boot
    rw [hsetup]
    rfl
  · intro fid x1 x2 x3 x4 handle flags
    rfl

/-- Claim C8 witness: setup with a descriptor whose program counter is zero,
then an arbitrary later call, evaluated concretely. -/
theorem setup_failure_disables_c8_witness :
    ((some (⟨0⟩ : entry_point_info) = none
        ∨ ∃ ep, some (⟨0⟩ : entry_point_info) = some ep ∧ ep.pc = 0))
      ∧ spm_setup mach0 (some ⟨0⟩) = SpmRes.ok (mach0, 1)
      ∧ spm_service_boot mach0 (some ⟨0⟩) = SpmRes.ok (mach0, false)
      ∧ std_svc_dispatch xlat0 false mach0 SP_COMMUNICATE_AARCH64 1 2 3 4
          CtxPtr.bootNsCtx 1 = SpmRes.ok (SMC_RET1 mach0 CtxPtr.bootNsCtx SMC_UNK) := by
  have h := setup_failure_disables_c8 xlat0 mach0 (some ⟨0⟩)
    (Or.inr ⟨⟨0⟩, rfl, rfl⟩)
  exact ⟨Or.inr ⟨⟨0⟩, rfl, rfl⟩, h.1, h.2.1,
    h.2.2 SP_COMMUNICATE_AARCH64 1 2 3 4 CtxPtr.bootNsCtx 1⟩

/-! ### Preservation helpers -/

/-- spm_synchronous_sp_exit never produces a return into a cpu context. -/
theorem spm_synchronous_sp_exit_no_ret (s : MachState) (r : Nat)
    (s1 : MachState) (p : CtxPtr) :
    spm_synchronous_sp_exit s r ≠ SpmRes.ok (s1, SmcOutcome.ret p) := by
  unfold spm_synchronous_sp_exit
  by_cases hc : cm_get_context s World.secure = some CtxPtr.spmSecureCtx
  · rw [if_pos hc]
    by_cases hz : (cm_el1_sysregs_context_save s World.secure).c_rt_ctx = 0
    · rw [if_pos hz]
      simp
    · rw [if_neg hz]
      simp
  · rw [if_neg hc]
    simp

/-- Any handler invocation that finishes by returning into a cpu context
leaves the pending call frame, the init flag and the registered contexts
unchanged. -/
theorem spm_smc_handler_ret_preserves (xlat : Nat → Nat → Nat → Int)
    (s : MachState) (fid x1 x2 x3 x4 : Nat) (handle : CtxPtr) (flags : Nat)
    (s1 : MachState) (p : CtxPtr)
    (h : spm_smc_handler xlat s fid x1 x2 x3 x4 handle flags =
      SpmRes.ok (s1, SmcOutcome.ret p)) :
    s1.c_rt_ctx = s.c_rt_ctx
      ∧ s1.sp_init_in_progress = s.sp_init_in_progress
      ∧ s1.cmSecureCtx = s.cmSecureCtx
      ∧ s1.cmNonSecureCtx = s.cmNonSecureCtx := by
  by_cases horig : is_caller_non_secure flags = SMC_FROM_SECURE
  · by_cases hfid : fid = SP_EVENT_COMPLETE_AARCH64
    · by_cases hctx : s.cmSecureCtx = some handle
      · by_cases hp : s.sp_init_in_progress = true
        · rcases handle with _ | _
          · by_cases hz : s.c_rt_ctx = 0 <;>
              simp [spm_smc_handler, spm_setup_next_eret_into_sel0,
                spm_synchronous_sp_exit, cm_el1_sysregs_context_save,
                cm_get_context, horig, hfid, hctx, hp, hz] at h
          · simp [spm_smc_handler, spm_setup_next_eret_into_sel0,
              spm_synchronous_sp_exit, cm_el1_sysregs_context_save,
              cm_get_context, horig, hfid, hctx, hp] at h
        · rcases hns : s.cmNonSecureCtx with _ | (_ | _) <;>
            simp [spm_smc_handler, spm_setup_next_eret_into_sel0,
              cm_el1_sysregs_context_save, cm_el1_sysregs_context_restore,
              cm_set_next_eret_context, cm_get_context, SMC_RET1, writeX0,
              horig, hfid, hctx, hp, hns] at h <;>
              (obtain ⟨he, hpp⟩ := h; subst he; simp_all)
      · simp [spm_smc_handler, cm_get_context, horig, hfid, hctx] at h
    · by_cases hma : fid = SP_MEM_ATTRIBUTES_SET_AARCH64
      · rcases handle with _ | _ <;>
          (simp [spm_smc_handler, spm_memory_attributes_smc_handler,
             SMC_RET1, writeX0, horig, hfid, hma,
             show SP_MEM_ATTRIBUTES_SET_AARCH64 ≠ SP_EVENT_COMPLETE_AARCH64 from
               by decide] at h;
           obtain ⟨he, hpp⟩ := h; subst he; simp_all)
      · rcases handle with _ | _ <;>
          (simp [spm_smc_handler, SMC_RET1, writeX0, horig, hfid, hma] at h;
           obtain ⟨he, hpp⟩ := h; subst he; simp_all)
  · by_cases hcm : fid = SP_COMMUNICATE_AARCH32 ∨ fid = SP_COMMUNICATE_AARCH64
    · by_cases hcs : s.cmSecureCtx = some CtxPtr.spmSecureCtx
      · simp [spm_smc_handler, cm_el1_sysregs_context_save,
          cm_el1_sysregs_context_restore, cm_set_next_eret_context,
          cm_get_context, SMC_RET4, writeX0to3, horig, hcm, hcs] at h
        obtain ⟨he, hpp⟩ := h
        subst he
        simp_all
      · simp [spm_smc_handler, cm_el1_sysregs_context_save, cm_get_context,
          horig, hcm, hcs] at h
    · rcases handle with _ | _ <;>
        (simp [spm_smc_handler, SMC_RET1, writeX0, horig, hcm] at h;
         obtain ⟨he, hpp⟩ := h; subst he; simp_all)

/-- Whenever the entry part of spm_init succeeds, the produced state has the
init flag raised, the frame captured, and the registered contexts unchanged. -/
theorem spm_init_pre_fields (s : MachState) (epInfo : Option entry_point_info)
    (frame : Nat) (s1 : MachState)
    (h : spm_init_pre s epInfo frame = SpmRes.ok s1) :
    s1.c_rt_ctx = frame ∧ s1.sp_init_in_progress = true
      ∧ s1.cmSecureCtx = s.cmSecureCtx ∧ s1.cmNonSecureCtx = s.cmNonSecureCtx := by
  rcases epInfo with _ | ep
  · simp [spm_init_pre] at h
  · unfold spm_init_pre spm_synchronous_sp_entry_transfer at h
    by_cases h0 : s.c_rt_ctx = 0 <;>
      by_cases hcs : s.cmSecureCtx = some CtxPtr.spmSecureCtx <;>
        simp [cm_init_my_context, cm_get_context, secure_partition_prepare_context,
          cm_el1_sysregs_context_restore, cm_set_next_eret_context, h0, hcs] at h
    subst h
    exact ⟨rfl, rfl, hcs.symm, rfl⟩

/-- A sequence of secure world calls that all come straight back to the
secure world leaves the frame, the init flag and the registered contexts
unchanged. -/
theorem runSecureCalls_preserves (xlat : Nat → Nat → Nat → Int) :
    ∀ (acts : List (Nat × Nat × Nat × Nat × Nat)) (s s' : MachState),
      runSecureCalls xlat s acts = SpmRes.ok s' →
      s'.c_rt_ctx = s.c_rt_ctx ∧ s'.sp_init_in_progress = s.sp_init_in_progress
        ∧ s'.cmSecureCtx = s.cmSecureCtx
        ∧ s'.cmNonSecureCtx = s.cmNonSecureCtx := by
  intro acts
  induction acts with
  | nil =>
    intro s s' h
    simp [runSecureCalls] at h
    subst h
    exact ⟨rfl, rfl, rfl, rfl⟩
  | cons a rest ih =>
    intro s s' h
    obtain ⟨fid, x1, x2, x3, x4⟩ := a
    unfold runSecureCalls at h
    cases hh : spm_smc_handler xlat s fid x1 x2 x3 x4 CtxPtr.spmSecureCtx
        SMC_FROM_SECURE with
    | abort =>
      rw [hh] at h
      simp at h
    | ok pr =>
      obtain ⟨s1, out⟩ := pr
      rw [hh] at h
      cases out with
      | ret q =>
        cases q with
        | spmSecureCtx =>
          have hp := spm_smc_handler_ret_preserves xlat s fid x1 x2 x3 x4
            CtxPtr.spmSecureCtx SMC_FROM_SECURE s1 CtxPtr.spmSecureCtx hh
          have hr := ih s1 s' h
          exact ⟨hr.1.trans hp.1, (hr.2.1).trans hp.2.1,
            (hr.2.2.1).trans hp.2.2.1, (hr.2.2.2).trans hp.2.2.2⟩
        | bootNsCtx => simp at h
      | exitToFrame f r => simp at h

/-- The completion SMC issued while sp_init_in_progress is set, from a state
whose secure context registration is intact and whose frame is pending,
saves the secure bank and jumps to the captured frame with the result. -/
theorem handler_complete_during_init (xlat : Nat → Nat → Nat → Int)
    (s : MachState) (r x2 x3 x4 : Nat)
    (hp : s.sp_init_in_progress = true)
    (hcs : s.cmSecureCtx = some CtxPtr.spmSecureCtx)
    (hz : s.c_rt_ctx ≠ 0) :
    spm_smc_handler xlat s SP_EVENT_COMPLETE_AARCH64 r x2 x3 x4
        CtxPtr.spmSecureCtx SMC_FROM_SECURE =
      SpmRes.ok
        ({ s with trace := Event.secPartExit s.c_rt_ctx r
            :: Event.sysregsSave World.secure
            :: Event.setElrSpsr World.secure
            :: Event.sysregsSave World.secure :: s.trace },
         SmcOutcome.exitToFrame s.c_rt_ctx r) := by
  simp [spm_smc_handler, spm_setup_next_eret_into_sel0, spm_synchronous_sp_exit,
    cm_el1_sysregs_context_save, cm_get_context, is_caller_non_secure,
    SMC_FROM_SECURE, SMC_FROM_NON_SECURE, hp, hcs, hz]

/-- The completion SMC issued while sp_init_in_progress is set but with no
pending frame aborts at the exit assertion. -/
theorem handler_complete_abort_frame (xlat : Nat → Nat → Nat → Int)
    (s : MachState) (r x2 x3 x4 : Nat)
    (hp : s.sp_init_in_progress = true)
    (hcs : s.cmSecureCtx = some CtxPtr.spmSecureCtx)
    (hz : s.c_rt_ctx = 0) :
    spm_smc_handler xlat s SP_EVENT_COMPLETE_AARCH64 r x2 x3 x4
        CtxPtr.spmSecureCtx SMC_FROM_SECURE = SpmRes.abort := by
  simp [spm_smc_handler, spm_setup_next_eret_into_sel0, spm_synchronous_sp_exit,
    cm_el1_sysregs_context_save, cm_get_context, is_caller_non_secure,
    SMC_FROM_SECURE, SMC_FROM_NON_SECURE, hp, hcs, hz]

/-- The completion SMC aborts at the context assertion when the registered
secure context is not the dispatcher context. -/
theorem handler_complete_abort_ctx (xlat : Nat → Nat → Nat → Int)
    (s : MachState) (r x2 x3 x4 : Nat)
    (hcs : ¬s.cmSecureCtx = some CtxPtr.spmSecureCtx) :
    spm_smc_handler xlat s SP_EVENT_COMPLETE_AARCH64 r x2 x3 x4
        CtxPtr.spmSecureCtx SMC_FROM_SECURE = SpmRes.abort := by
  simp [spm_smc_handler, cm_get_context, is_caller_non_secure,
    SMC_FROM_SECURE, SMC_FROM_NON_SECURE, hcs]

/-! ### Claim C4 -/

/-- Claim C4: for every entry sequence in which the boot orchestrator invokes
spm_init (any interleaving of secure world calls before the completion, any
completion result), spm_init either aborts before returning or returns
exactly 0 with sp_init_in_progress cleared; moreover the flag is raised
before the synchronous entry (the state handed to the transfer carries the
flag) and, whenever the entry part succeeds, the captured frame and raised
flag are in place. -/
theorem spm_init_returns_zero_or_aborts_c4 (xlat : Nat → Nat → Nat → Int)
    (s : MachState) (ep : entry_point_info) (frame r : Nat)
    (acts : List (Nat × Nat × Nat × Nat × Nat)) :
    spm_init_pre s (some ep) frame =
        spm_synchronous_sp_entry_transfer
          { cm_init_my_context s ep.pc with sp_init_in_progress := true } frame
      ∧ (∀ s1, spm_init_pre s (some ep) frame = SpmRes.ok s1 →
          s1.sp_init_in_progress = true ∧ s1.c_rt_ctx = frame)
      ∧ (spm_init_run xlat s (some ep) frame acts r = SpmRes.abort
          ∨ ∃ s2, spm_init_run xlat s (some ep) frame acts r = SpmRes.ok (s2, 0)
              ∧ s2.sp_init_in_progress = false) := by
  refine ⟨rfl, ?_, ?_⟩
  · intro s1 h
    have hf := spm_init_pre_fields s (some ep) frame s1 h
    exact ⟨hf.2.1, hf.1⟩
  · cases hpre : spm_init_pre s (some ep) frame with
    | abort =>
      left
      simp [spm_init_run, hpre]
    | ok s1 =>
      obtain ⟨e1, e2, e3, e4⟩ := spm_init_pre_fields s (some ep) frame s1 hpre
      cases hrun : runSecureCalls xlat s1 acts with
      | abort =>
        left
        simp [spm_init_run, hpre, hrun]
      | ok s2 =>
        obtain ⟨f1, f2, f3, f4⟩ := runSecureCalls_preserves xlat acts s1 s2 hrun
        have hp2 : s2.sp_init_in_progress = true := f2.trans e2
        by_cases hcs2 : s2.cmSecureCtx = some CtxPtr.spmSecureCtx
        · by_cases hfz : s2.c_rt_ctx = 0
          · left
            have hc := handler_complete_abort_frame xlat s2 r 0 0 0 hp2 hcs2 hfz
            simp [spm_init_run, hpre, hrun, hc]
          · have hc := handler_complete_during_init xlat s2 r 0 0 0 hp2 hcs2 hfz
            by_cases hr : r = 0
            · subst hr
              right
              refine ⟨{ s2 with
                  c_rt_ctx := 0
                  sp_init_in_progress := false
                  trace := Event.secPartExit s2.c_rt_ctx 0
                    :: Event.sysregsSave World.secure
                    :: Event.setElrSpsr World.secure
                    :: Event.sysregsSave World.secure :: s2.trace }, ?_, rfl⟩
              simp [spm_init_run, hpre, hrun, hc,
                spm_synchronous_sp_entry_resume, spm_init_post]
            · left
              simp [spm_init_run, hpre, hrun, hc,
                spm_synchronous_sp_entry_resume, spm_init_post, hr]
        · left
          have hc := handler_complete_abort_ctx xlat s2 r 0 0 0 hcs2
          simp [spm_init_run, hpre, hrun, hc]

/-- Claim C4 witness: a concrete boot entry (program counter 4096, frame 7,
no interposed calls, completion result 0) on which the run returns 0 with the
flag cleared. -/
theorem spm_init_returns_zero_or_aborts_c4_witness :
    (spm_init_run xlat0 sWit (some ⟨4096⟩) 7 [] 0 = SpmRes.abort
        ∨ ∃ s2, spm_init_run xlat0 sWit (some ⟨4096⟩) 7 [] 0 = SpmRes.ok (s2, 0)
            ∧ s2.sp_init_in_progress = false)
      ∧ (∀ s1, spm_init_pre sWit (some ⟨4096⟩) 7 = SpmRes.ok s1 →
          s1.sp_init_in_progress = true ∧ s1.c_rt_ctx = 7) :=
  ⟨(spm_init_returns_zero_or_aborts_c4 xlat0 sWit ⟨4096⟩ 7 0 []).2.2,
   (spm_init_returns_zero_or_aborts_c4 xlat0 sWit ⟨4096⟩ 7 0 []).2.1⟩

/-! ### Claim C5 -/

/-- Claim C5: in every reachable system configuration the pending call frame
of the singleton context is occupied exactly when execution is inside the
blocked synchronous entry performed by spm_init (the inEnter marker set by
the entry transfer and cleared by the resume), and sp_init_in_progress
implies that same interval, i.e. it is set only between the entry into the
secure partition and the first completion signal. -/
theorem reachable_frame_flag_invariant_c5 (xlat : Nat → Nat → Nat → Int)
    (sys : Sys) (h : Reachable xlat sys) :
    (sys.st.c_rt_ctx ≠ 0 ↔ sys.inEnter = true)
      ∧ (sys.st.sp_init_in_progress = true → sys.inEnter = true) := by
  induction h with
  | boot pc s0 hpc hsetup =>
    unfold spm_setup spm_init_spm_ep_state at hsetup
    simp [hpc, cm_set_context, secure_partition_setup,
      bl31_register_bl32_init] at hsetup
    obtain ⟨he, -⟩ := hsetup
    simp
    exact ⟨rfl, rfl⟩
  | step a b ha hstep ih =>
    cases hstep with
    | initEnter b0 s s1 ep frame hf hpre =>
      obtain ⟨e1, e2, e3, e4⟩ := spm_init_pre_fields s (some ep) frame s1 hpre
      exact ⟨by simp [e1, hf], fun _ => rfl⟩
    | secRetSelf b0 s s1 fid x1 x2 x3 x4 hh =>
      have hp := spm_smc_handler_ret_preserves xlat s fid x1 x2 x3 x4
        CtxPtr.spmSecureCtx SMC_FROM_SECURE s1 CtxPtr.spmSecureCtx hh
      refine ⟨?_, ?_⟩
      · show s1.c_rt_ctx ≠ 0 ↔ b0 = true
        rw [hp.1]
        exact ih.1
      · show s1.sp_init_in_progress = true → b0 = true
        intro hx
        rw [hp.2.1] at hx
        exact ih.2 hx
    | secRetNormal b0 s s1 fid x1 x2 x3 x4 hh =>
      have hp := spm_smc_handler_ret_preserves xlat s fid x1 x2 x3 x4
        CtxPtr.spmSecureCtx SMC_FROM_SECURE s1 CtxPtr.bootNsCtx hh
      refine ⟨?_, ?_⟩
      · show s1.c_rt_ctx ≠ 0 ↔ b0 = true
        rw [hp.1]
        exact ih.1
      · show s1.sp_init_in_progress = true → b0 = true
        intro hx
        rw [hp.2.1] at hx
        exact ih.2 hx
    | secExitResume b0 s s1 s2 fid x1 x2 x3 x4 frame rc ret hh hpost =>
      unfold spm_init_post at hpost
      by_cases hrc : (spm_synchronous_sp_entry_resume s1 rc).2 = 0
      · rw [if_pos hrc] at hpost
        simp only [spm_synchronous_sp_entry_resume, SpmRes.ok.injEq,
          Prod.mk.injEq] at hpost
        obtain ⟨he, -⟩ := hpost
        subst he
        simp
      · rw [if_neg hrc] at hpost
        simp at hpost
    | nsRetSelf b0 s s1 fid x1 x2 x3 x4 hh =>
      have hp := spm_smc_handler_ret_preserves xlat s fid x1 x2 x3 x4
        CtxPtr.bootNsCtx SMC_FROM_NON_SECURE s1 CtxPtr.bootNsCtx hh
      refine ⟨?_, ?_⟩
      · show s1.c_rt_ctx ≠ 0 ↔ b0 = true
        rw [hp.1]
        exact ih.1
      · show s1.sp_init_in_progress = true → b0 = true
        intro hx
        rw [hp.2.1] at hx
        exact ih.2 hx
    | nsRetSecure b0 s s1 fid x1 x2 x3 x4 hh =>
      have hp := spm_smc_handler_ret_preserves xlat s fid x1 x2 x3 x4
        CtxPtr.bootNsCtx SMC_FROM_NON_SECURE s1 CtxPtr.spmSecureCtx hh
      refine ⟨?_, ?_⟩
      · show s1.c_rt_ctx ≠ 0 ↔ b0 = true
        rw [hp.1]
        exact ih.1
      · show s1.sp_init_in_progress = true → b0 = true
        intro hx
        rw [hp.2.1] at hx
        exact ih.2 hx

/-- The machine state right after a successful spm_setup from reset. -/
def bootMach : MachState :=
  { cmSecureCtx := some CtxPtr.spmSecureCtx,
    bl32InitRegistered := true,
    trace := [Event.registerBl32Init, Event.xlatSetup] }

/-- Claim C5 witness: the boot configuration is reachable and satisfies the
invariant. -/
theorem reachable_frame_flag_invariant_c5_witness :
    Reachable xlat0 ⟨Loc.preInit, false, bootMach⟩
      ∧ (bootMach.c_rt_ctx ≠ 0 ↔ false = true)
      ∧ (bootMach.sp_init_in_progress = true → false = true) := by
  have hre : Reachable xlat0 ⟨Loc.preInit, false, bootMach⟩ :=
    Reachable.boot 4096 bootMach (by decide) (by rfl)
  exact ⟨hre, reachable_frame_flag_invariant_c5 xlat0 _ hre⟩

end Spm
